import Mathlib

/-!
Verification development for the Svea payment adapter
(payload-svea-adapter).  The definitions below are a shallow embedding of
the order-reconciliation core: the webhook handler
(src/handlers/webhook.ts), the validation-callback handler
(src/handlers/validation-callback.ts), the adapter's confirmOrder flow
(src/adapter/index.ts) and the auth-header utility (src/adapter/auth.ts).
The host persistence layer is modelled as an explicit record store with
query-by-field, per the spec's external-collaborator contract; JavaScript
value quirks that the code relies on (truthiness of 0 and the empty
string, the difference between the ?? and || operators, parseInt versus
Number) are modelled explicitly.
-/

namespace Svea

/-- A loosely typed JavaScript identifier value: a number or a string.
Identifier fields arriving in webhook bodies and confirm-order requests
have this shape in the source (typed as number-or-string unions). -/
inductive JsVal where
  | num (n : Int)
  | str (s : String)
deriving Repr, DecidableEq

/-- JavaScript truthiness of a JsVal: the number 0 and the empty string
are falsy, everything else is truthy. -/
def JsVal.truthy : JsVal → Bool
  | .num n => n != 0
  | .str s => s != ""

/-- JavaScript truthiness of an optional value (undefined and null are
falsy). -/
def jsTruthy (v : Option JsVal) : Bool :=
  match v with
  | none => false
  | some v => v.truthy

/-- JavaScript truthiness of an optional string. -/
def jsStrTruthy (v : Option String) : Bool :=
  match v with
  | none => false
  | some s => s != ""

/-- JavaScript truthiness of an optional numeric id (0 is falsy). -/
def natTruthy (v : Option Nat) : Bool :=
  match v with
  | none => false
  | some n => n != 0

/-- JavaScript a || b on optional strings: keeps a unless it is absent or
empty. -/
def jsOrStr (a b : Option String) : Option String :=
  match a with
  | some s => if s = "" then b else some s
  | none => b

/-- JavaScript a || b on optional numeric ids: keeps a unless it is
absent or 0. -/
def jsOrNat (a b : Option Nat) : Option Nat :=
  match a with
  | some n => if n = 0 then b else some n
  | none => b

/-- JavaScript a || b on optional integers: keeps a unless it is absent
or 0. -/
def jsOrInt (a b : Option Int) : Option Int :=
  match a with
  | some n => if n = 0 then b else some n
  | none => b

/-- Characters skipped by JavaScript number parsing. -/
def isJsSpace (c : Char) : Bool :=
  c = ' ' || c = '\t' || c = '\n' || c = '\r'

/-- Decimal digits folded into a natural number. -/
def foldDigits (ds : List Char) : Nat :=
  ds.foldl (fun a c => a * 10 + (c.toNat - 48)) 0

/-- JavaScript parseInt(s, 10): skip leading whitespace, read an optional
sign and the longest leading run of digits; none models NaN (no digit
found).  Trailing garbage is ignored, as in JavaScript. -/
def parseIntJs (s : String) : Option Int :=
  let cs := s.toList.dropWhile isJsSpace
  let signAndRest : Int × List Char :=
    match cs with
    | '-' :: r => (-1, r)
    | '+' :: r => (1, r)
    | r => (1, r)
  let ds := signAndRest.2.takeWhile Char.isDigit
  if ds.isEmpty then none
  else some (signAndRest.1 * (foldDigits ds : Int))

/-- JavaScript Number(v) restricted to the integer-shaped inputs that
occur here: a number is itself, a blank string is 0, a full decimal
literal parses, anything else is NaN (none). -/
def jsNumber : JsVal → Option Int
  | .num n => some n
  | .str s =>
    let cs := ((s.toList.dropWhile isJsSpace).reverse.dropWhile isJsSpace).reverse
    match cs with
    | [] => some 0
    | '-' :: r =>
      if r ≠ [] ∧ r.all Char.isDigit then some (-(foldDigits r : Int)) else none
    | '+' :: r =>
      if r ≠ [] ∧ r.all Char.isDigit then some ((foldDigits r : Int)) else none
    | r => if r.all Char.isDigit then some ((foldDigits r : Int)) else none

/-- The conversion applied to identifier values before store lookups:
typeof v === 'string' ? parseInt(v, 10) : v.  none models NaN. -/
def jsValToId : JsVal → Option Int
  | .num n => some n
  | .str s => parseIntJs s

/-- JavaScript Array.from(new Set(xs)): removes duplicates, keeping the
first occurrence of each element. -/
def jsSetDedup (xs : List Nat) : List Nat :=
  xs.foldl (fun acc x => if x ∈ acc then acc else acc ++ [x]) []

/-- A cart or order line item after reference unwrapping: product and
variant as bare ids.  The object-versus-id union of the source collapses
to the id here, which is exactly what the normalization steps extract. -/
structure Item where
  product : Option Nat := none
  variant : Option Nat := none
  quantity : Nat := 0
deriving Repr, DecidableEq

/-- normalizeCartItems (src/adapter/index.ts): unwraps object references
to bare ids (already bare in this model) and applies quantity || 1.  The
inline item mapping in the webhook handler performs the same
transformation. -/
def normalizeCartItems (items : List Item) : List Item :=
  items.map fun it => { it with quantity := if it.quantity = 0 then 1 else it.quantity }

/-- A transaction document.  The svea group field of the source is
flattened into the three svea-prefixed fields. -/
structure Tx where
  id : Nat
  status : String := "pending"
  order : Option Nat := none
  cart : Option Nat := none
  items : List Item := []
  amount : Nat := 0
  currency : Option String := none
  customer : Option Nat := none
  customerEmail : Option String := none
  billingAddress : Option Nat := none
  sveaOrderId : Option Int := none
  sveaClientOrderNumber : Option String := none
  sveaPaymentType : Option String := none
deriving Repr, DecidableEq

/-- A cart document. -/
structure Cart where
  id : Nat
  items : List Item := []
  subtotal : Nat := 0
  currency : Option String := none
  customer : Option Nat := none
  purchasedAt : Option String := none
  status : Option String := none
deriving Repr, DecidableEq

/-- An order document.  Addresses are opaque tokens: no claim depends on
the field-by-field address translation. -/
structure Order where
  id : Nat
  amount : Nat := 0
  currency : String := "NOK"
  items : List Item := []
  status : String := "processing"
  transactions : List Nat := []
  shippingAddress : Option Nat := none
  customer : Option Nat := none
  customerEmail : Option String := none
deriving Repr, DecidableEq

/-- The data record passed to payload.create / payload.update for an
order.  Optional fields model the conditional spreads of the source: a
field that is none was not included in the record. -/
structure OrderData where
  amount : Nat
  currency : String
  items : List Item
  status : String
  transactions : List Nat
  shippingAddress : Option Nat := none
  customer : Option Nat := none
  customerEmail : Option String := none
deriving Repr, DecidableEq

/-- The external document store: the three collections the core touches,
plus the fresh-id source for created orders. -/
structure Store where
  transactions : List Tx := []
  orders : List Order := []
  carts : List Cart := []
  nextOrderId : Nat := 1
deriving Repr, DecidableEq

/-- find on transactions where svea.orderId equals the given value.
A none id models NaN, which the store's equals matches against nothing. -/
def Store.findTxBySveaOrderId (s : Store) (i : Option Int) : Option Tx :=
  match i with
  | some n => s.transactions.find? fun t => t.sveaOrderId = some n
  | none => none

/-- findByID on transactions; none models both NaN and an unknown id
(payload.findByID throws in both cases, and every caller catches). -/
def Store.findTxById (s : Store) (i : Option Int) : Option Tx :=
  match i with
  | some n => s.transactions.find? fun t => (t.id : Int) = n
  | none => none

/-- find on transactions where svea.clientOrderNumber equals the given
value. -/
def Store.findTxByClientOrderNumber (s : Store) (c : String) : Option Tx :=
  s.transactions.find? fun t => t.sveaClientOrderNumber = some c

/-- find on orders where the transactions array contains the given id. -/
def Store.findOrderContainingTx (s : Store) (i : Nat) : Option Order :=
  s.orders.find? fun o => i ∈ o.transactions

/-- findByID on orders. -/
def Store.findOrderById (s : Store) (i : Nat) : Option Order :=
  s.orders.find? fun o => o.id = i

/-- findByID on carts. -/
def Store.findCartById (s : Store) (i : Nat) : Option Cart :=
  s.carts.find? fun c => c.id = i

/-- payload.update on a transaction: replaces the named fields of the
matching document. -/
def Store.updateTxStore (s : Store) (i : Nat) (f : Tx → Tx) : Store :=
  { s with transactions := s.transactions.map fun t => if t.id = i then f t else t }

/-- payload.update on a cart. -/
def Store.updateCartStore (s : Store) (i : Nat) (f : Cart → Cart) : Store :=
  { s with carts := s.carts.map fun c => if c.id = i then f c else c }

/-- Applies an order-update data record to a stored order: fields present
in the record replace the stored ones, absent optional fields are left
untouched, and the transactions array is replaced by the given list
(the source always overrides transactions explicitly on update). -/
def applyOrderData (d : OrderData) (ts : List Nat) (o : Order) : Order :=
  { o with
    amount := d.amount
    currency := d.currency
    items := d.items
    status := d.status
    transactions := ts
    shippingAddress := d.shippingAddress <|> o.shippingAddress
    customer := d.customer <|> o.customer
    customerEmail := d.customerEmail <|> o.customerEmail }

/-- payload.update on an order with an OrderData record plus an explicit
transactions list. -/
def Store.updateOrderDoc (s : Store) (i : Nat) (d : OrderData) (ts : List Nat) : Store :=
  { s with orders := s.orders.map fun o => if o.id = i then applyOrderData d ts o else o }

/-- payload.create on orders: a new document under the fresh id. -/
def mkOrder (i : Nat) (d : OrderData) : Order :=
  { id := i
    amount := d.amount
    currency := d.currency
    items := d.items
    status := d.status
    transactions := d.transactions
    shippingAddress := d.shippingAddress
    customer := d.customer
    customerEmail := d.customerEmail }

/-- Result of one call to the external store: success or a thrown error,
each carrying the store as it stands after the call. -/
inductive StepRes (α : Type) where
  | ok (a : α) (s : Store)
  | err (e : String) (s : Store)

/-- The store operations the webhook handler invokes.  Keeping them
abstract captures the spec's external-collaborator contract: any call may
fail (a thrown persistence error), and the handler's catch-all must still
answer 200. -/
structure WebhookDeps where
  findTxBySveaOrderId : Option Int → Store → StepRes (Option Tx)
  updateTx : Nat → (Tx → Tx) → Store → StepRes Unit
  findOrderIdContainingTx : Nat → Store → StepRes (Option Nat)
  findCartById : Nat → Store → StepRes Cart
  createOrder : OrderData → Store → StepRes Order
  updateCart : Nat → (Cart → Cart) → Store → StepRes Unit
  nowIso : String := ""

/-- A webhook request after transport framing: each field records one of
the places the handler probes for the order id, status and payment type
(body in PascalCase and camelCase, the Data wrapper, the query string and
the trailing numeric path segment). -/
structure WebhookReq where
  orderIdPascal : Option JsVal := none
  orderIdCamel : Option JsVal := none
  orderIdData : Option JsVal := none
  orderIdQuery : Option String := none
  orderIdPath : Option String := none
  statusPascal : Option String := none
  statusCamel : Option String := none
  statusData : Option String := none
  statusQuery : Option String := none
  paymentTypePascal : Option String := none
  paymentTypeCamel : Option String := none
  paymentTypeData : Option String := none
deriving Repr, DecidableEq

/-- The order-id resolution chain of the webhook handler
(src/handlers/webhook.ts:97-105), a ?? chain over the probed sources. -/
def webhookOrderIdVal (r : WebhookReq) : Option JsVal :=
  r.orderIdPascal <|> r.orderIdCamel <|> r.orderIdData <|>
    (r.orderIdQuery.map JsVal.str) <|> (r.orderIdPath.map JsVal.str)

/-- The status resolution chain of the webhook handler. -/
def webhookStatus (r : WebhookReq) : Option String :=
  r.statusPascal <|> r.statusCamel <|> r.statusData <|> r.statusQuery

/-- The payment-type resolution chain of the webhook handler. -/
def webhookPaymentType (r : WebhookReq) : Option String :=
  r.paymentTypePascal <|> r.paymentTypeCamel <|> r.paymentTypeData

/-- The transport response of the webhook handler: HTTP status plus the
success flag and message of the JSON body when one is sent. -/
structure WebhookResp where
  status : Nat
  success : Bool := false
  message : Option String := none
deriving Repr, DecidableEq

/-- The status === 'Final' branch of the webhook handler
(src/handlers/webhook.ts:165-334): idempotency gate, then transaction
update, then existing-order discovery, then the create path with the
cart fetch, order creation, order link and best-effort cart update.
Errors from a store call fall to the handler's catch-all, which answers
200 with a null body. -/
def webhookFinalBranch (deps : WebhookDeps) (r : WebhookReq) (orderIdNum : Option Int)
    (tx : Tx) (s : Store) : WebhookResp × Store :=
  if tx.status = "succeeded" ∧ natTruthy tx.order then
    ({ status := 200, success := true, message := some "Already processed" }, s)
  else
    match deps.updateTx tx.id (fun t => { t with
        status := "succeeded"
        sveaOrderId := orderIdNum
        sveaClientOrderNumber := tx.sveaClientOrderNumber
        sveaPaymentType := jsOrStr (webhookPaymentType r) tx.sveaPaymentType }) s with
    | .err _ s1 => ({ status := 200 }, s1)
    | .ok _ s1 =>
      match (if natTruthy tx.order then StepRes.ok tx.order s1
             else deps.findOrderIdContainingTx tx.id s1) with
      | .err _ s2 => ({ status := 200 }, s2)
      | .ok existingOrderId s2 =>
        if natTruthy existingOrderId then ({ status := 200, success := true }, s2)
        else
          match (match tx.cart with
                 | some cid =>
                   if cid ≠ 0 then
                     match deps.findCartById cid s2 with
                     | .ok c s3 => StepRes.ok (some c) s3
                     | .err e s3 => StepRes.err e s3
                   else StepRes.ok none s2
                 | none => StepRes.ok none s2) with
          | .err _ s3 => ({ status := 200 }, s3)
          | .ok none s3 => ({ status := 200, success := true }, s3)
          | .ok (some cart) s3 =>
            let od : OrderData := {
              amount := if tx.amount ≠ 0 then tx.amount else cart.subtotal
              currency := (jsOrStr tx.currency (jsOrStr cart.currency (some "NOK"))).getD "NOK"
              items := normalizeCartItems cart.items
              status := "processing"
              transactions := [tx.id]
              customer :=
                if natTruthy (jsOrNat cart.customer tx.customer) then
                  jsOrNat cart.customer tx.customer
                else none
              customerEmail :=
                if jsStrTruthy tx.customerEmail then tx.customerEmail else none }
            match deps.createOrder od s3 with
            | .err _ s4 => ({ status := 200 }, s4)
            | .ok order s4 =>
              match deps.updateTx tx.id (fun t => { t with order := some order.id }) s4 with
              | .err _ s5 => ({ status := 200 }, s5)
              | .ok _ s5 =>
                match deps.updateCart cart.id (fun c => { c with
                    purchasedAt :=
                      some ((jsOrStr cart.purchasedAt (some deps.nowIso)).getD deps.nowIso)
                    status := some "purchased"
                    items := [] }) s5 with
                | .err _ s6 => ({ status := 200, success := true }, s6)
                | .ok _ s6 => ({ status := 200, success := true }, s6)

/-- The webhook handler (src/handlers/webhook.ts): resolve the order id
from the probed sources, drop on ambiguity with a 200, look the
transaction up by svea.orderId, then dispatch on the delivered status.
Every code path answers HTTP 200; store errors are swallowed by the
catch-all. -/
def handleWebhook (deps : WebhookDeps) (r : WebhookReq) (s : Store) : WebhookResp × Store :=
  match webhookOrderIdVal r with
  | none => ({ status := 200 }, s)
  | some v =>
    if v.truthy then
      match deps.findTxBySveaOrderId (jsValToId v) s with
      | .err _ s1 => ({ status := 200 }, s1)
      | .ok none s1 => ({ status := 200 }, s1)
      | .ok (some tx) s1 =>
        if webhookStatus r = some "Final" then
          webhookFinalBranch deps r (jsValToId v) tx s1
        else if webhookStatus r = some "Cancelled" then
          match deps.updateTx tx.id (fun t => { t with status := "failed" }) s1 with
          | .err _ s2 => ({ status := 200 }, s2)
          | .ok _ s2 => ({ status := 200, success := true }, s2)
        else ({ status := 200, success := true }, s1)
    else ({ status := 200 }, s)

/-- The honest store implementation of the webhook dependencies: queries
and updates with the document-store semantics, findByID and update
throwing Not Found on an unknown id. -/
def payloadDeps (nowIso : String := "") : WebhookDeps := {
  findTxBySveaOrderId := fun oid s => .ok (s.findTxBySveaOrderId oid) s
  updateTx := fun i f s =>
    if (s.transactions.find? fun t => t.id = i).isSome then
      .ok () (s.updateTxStore i f)
    else .err "Not Found" s
  findOrderIdContainingTx := fun i s => .ok ((s.findOrderContainingTx i).map (·.id)) s
  findCartById := fun i s =>
    match s.findCartById i with
    | some c => .ok c s
    | none => .err "Not Found" s
  createOrder := fun d s =>
    .ok (mkOrder s.nextOrderId d)
      { s with orders := s.orders ++ [mkOrder s.nextOrderId d], nextOrderId := s.nextOrderId + 1 }
  updateCart := fun i f s =>
    if (s.carts.find? fun c => c.id = i).isSome then
      .ok () (s.updateCartStore i f)
    else .err "Not Found" s
  nowIso := nowIso }

/-- The identifier fields of a confirm-order request body
(src/adapter/index.ts:403-414), one field per probed casing variant. -/
structure ConfirmData where
  orderId : Option JsVal := none
  orderIdPascal : Option JsVal := none
  sveaOrderIdField : Option JsVal := none
  transactionId : Option JsVal := none
  transactionIdUpper : Option JsVal := none
  clientOrderNumber : Option String := none
  clientOrderNumberPascal : Option String := none
  customerEmail : Option String := none
deriving Repr, DecidableEq

/-- data.orderId ?? data.OrderId ?? data.sveaOrderId. -/
def inputSveaOrderId (d : ConfirmData) : Option JsVal :=
  d.orderId <|> d.orderIdPascal <|> d.sveaOrderIdField

/-- data.transactionId ?? data.transactionID. -/
def confirmTransactionId (d : ConfirmData) : Option JsVal :=
  d.transactionId <|> d.transactionIdUpper

/-- data.clientOrderNumber ?? data.ClientOrderNumber. -/
def confirmClientOrderNumber (d : ConfirmData) : Option String :=
  d.clientOrderNumber <|> d.clientOrderNumberPascal

/-- Strategy 1 of the identifier resolver: direct findByID by
transactionId (src/adapter/index.ts:425-437).  A malformed id (parseInt
yields NaN) or an unknown id makes payload.findByID throw; the local
catch turns that into no result. -/
def resolveByTransactionId (d : ConfirmData) (s : Store) : Option Tx :=
  match confirmTransactionId d with
  | some v => if v.truthy then s.findTxById (jsValToId v) else none
  | none => none

/-- Strategy 2 of the identifier resolver: query by svea.orderId
(src/adapter/index.ts:439-453). -/
def resolveBySveaOrderId (d : ConfirmData) (s : Store) : Option Tx :=
  match inputSveaOrderId d with
  | some v => if v.truthy then s.findTxBySveaOrderId (jsValToId v) else none
  | none => none

/-- Strategy 3 of the identifier resolver: query by
svea.clientOrderNumber (src/adapter/index.ts:455-466). -/
def resolveByClientOrderNumber (d : ConfirmData) (s : Store) : Option Tx :=
  match confirmClientOrderNumber d with
  | some c => if c ≠ "" then s.findTxByClientOrderNumber c else none
  | none => none

/-- The identifier resolver of confirmOrder: the three strategies in
priority order, each tried only while no earlier one produced a
transaction. -/
def resolveTransaction (d : ConfirmData) (s : Store) : Option Tx :=
  match resolveByTransactionId d s with
  | some tx => some tx
  | none =>
    match resolveBySveaOrderId d s with
    | some tx => some tx
    | none => resolveByClientOrderNumber d s

/-- Identifier backfill (src/adapter/index.ts:476-484): if the caller's
input carried no truthy provider order id but the resolved transaction
stores a truthy one, the stored value becomes the effective id. -/
def effectiveSveaOrderId (d : ConfirmData) (tx : Tx) : Option JsVal :=
  let v := inputSveaOrderId d
  if jsTruthy v then v
  else
    match tx.sveaOrderId with
    | some n => if n ≠ 0 then some (.num n) else v
    | none => v

/-- The provider order as returned by GET /api/orders/{id}, restricted
to the fields confirmOrder reads.  Addresses are opaque tokens. -/
structure SveaOrderView where
  Stat : String
  ClientOrderNumber : String := ""
  PaymentType : Option String := none
  PaymentPaymentType : Option String := none
  ShippingAddress : Option Nat := none
  BillingAddress : Option Nat := none
  CustomerEmailAddress : Option String := none
  EmailAddress : Option String := none
deriving Repr, DecidableEq

/-- The external collaborators of confirmOrder: the provider gateway's
fetch-order call (whose failure is a thrown gateway error), the
authenticated user, the clock and the address-translation utility on
opaque address tokens. -/
structure ConfirmEnv where
  fetchSveaOrder : JsVal → Except String SveaOrderView
  userId : Option Nat := none
  userEmail : Option String := none
  nowIso : String := ""
  mapAddr : Nat → Option Nat := fun a => some a

/-- The successful result record of confirmOrder. -/
structure ConfirmResult where
  message : String
  orderID : Nat
  transactionID : Nat
deriving Repr, DecidableEq

/-- The order-data record confirmOrder builds before the create-or-update
decision (src/adapter/index.ts:650-669). -/
def confirmOrderPayload (env : ConfirmEnv) (d : ConfirmData) (tx : Tx)
    (sveaOrder : SveaOrderView) (cart : Cart) : OrderData :=
  let normalizedOrderItems :=
    let fromCart := normalizeCartItems cart.items
    if fromCart.isEmpty ∧ ¬ tx.items.isEmpty then normalizeCartItems tx.items else fromCart
  let shippingAddressPayload :=
    match tx.billingAddress with
    | some a => some a
    | none => (sveaOrder.ShippingAddress <|> sveaOrder.BillingAddress).bind env.mapAddr
  let resolvedCustomerId := jsOrNat cart.customer (jsOrNat tx.customer env.userId)
  let resolvedCustomerEmail :=
    jsOrStr tx.customerEmail (jsOrStr d.customerEmail
      (jsOrStr sveaOrder.CustomerEmailAddress (jsOrStr sveaOrder.EmailAddress env.userEmail)))
  { amount := if tx.amount ≠ 0 then tx.amount else cart.subtotal
    currency := (jsOrStr tx.currency (jsOrStr cart.currency (some "NOK"))).getD "NOK"
    items := normalizedOrderItems
    status := "processing"
    transactions := [tx.id]
    shippingAddress := shippingAddressPayload
    customer := if natTruthy resolvedCustomerId then resolvedCustomerId else none
    customerEmail := if jsStrTruthy resolvedCustomerEmail then resolvedCustomerEmail else none }

/-- The billing address confirmOrder resolves for the transaction update
(src/adapter/index.ts:589-606). -/
def confirmBillingAddress (env : ConfirmEnv) (tx : Tx) (sveaOrder : SveaOrderView) :
    Option Nat :=
  match tx.billingAddress with
  | some a => some a
  | none => (sveaOrder.BillingAddress <|> sveaOrder.ShippingAddress).bind env.mapAddr

/-- The customer email confirmOrder resolves
(src/adapter/index.ts:620-625). -/
def confirmCustomerEmail (env : ConfirmEnv) (d : ConfirmData) (tx : Tx)
    (sveaOrder : SveaOrderView) : Option String :=
  jsOrStr tx.customerEmail (jsOrStr d.customerEmail
    (jsOrStr sveaOrder.CustomerEmailAddress (jsOrStr sveaOrder.EmailAddress env.userEmail)))

/-- The materialization tail of confirmOrder once the provider order is
verified Final (src/adapter/index.ts:556-769): fetch the cart, build the
order payload, discover an existing order, update it in place with the
merged transactions set or create a new one, mark the cart purchased
(best-effort) and update the transaction to succeeded with its order
link and merged svea data. -/
def confirmMaterialize (env : ConfirmEnv) (d : ConfirmData) (s : Store) (tx : Tx)
    (sveaOrderIdVal : JsVal) (sveaOrder : SveaOrderView) :
    Except String ConfirmResult × Store :=
  let cartRes : Except String Cart :=
    match tx.cart with
    | some cid =>
      if cid ≠ 0 then
        match s.findCartById cid with
        | some c => .ok c
        | none => .error "Not Found"
      else .error "Cart not found."
    | none => .error "Cart not found."
  match cartRes with
  | .error e => (.error e, s)
  | .ok cart =>
    let orderPayload := confirmOrderPayload env d tx sveaOrder cart
    let existingOrderId : Option Nat :=
      if natTruthy tx.order then tx.order
      else (s.findOrderContainingTx tx.id).map (·.id)
    let createdOrUpdated : Except String (Nat × Store) :=
      match existingOrderId with
      | some oid =>
        match s.findOrderById oid with
        | none => .error "Not Found"
        | some existingOrder =>
          let existingTransactionIds := existingOrder.transactions.filter fun i => i ≠ 0
          let mergedTransactionIds := jsSetDedup (existingTransactionIds ++ [tx.id])
          .ok (oid, s.updateOrderDoc oid orderPayload mergedTransactionIds)
      | none =>
        .ok (s.nextOrderId,
          { s with orders := s.orders ++ [mkOrder s.nextOrderId orderPayload]
                   nextOrderId := s.nextOrderId + 1 })
    match createdOrUpdated with
    | .error e => (.error e, s)
    | .ok (orderId, s1) =>
      let s2 := s1.updateCartStore cart.id fun c => { c with
        purchasedAt := some ((jsOrStr cart.purchasedAt (some env.nowIso)).getD env.nowIso)
        status := some "purchased"
        items := [] }
      let billingAddressPayload := confirmBillingAddress env tx sveaOrder
      let resolvedCustomerEmail := confirmCustomerEmail env d tx sveaOrder
      let s3 := s2.updateTxStore tx.id fun t => { t with
        order := some orderId
        status := "succeeded"
        billingAddress := billingAddressPayload <|> t.billingAddress
        customerEmail :=
          if jsStrTruthy resolvedCustomerEmail then resolvedCustomerEmail else t.customerEmail
        sveaOrderId := jsNumber sveaOrderIdVal
        sveaClientOrderNumber :=
          jsOrStr tx.sveaClientOrderNumber (some sveaOrder.ClientOrderNumber)
        sveaPaymentType := jsOrStr sveaOrder.PaymentType sveaOrder.PaymentPaymentType }
      (.ok { message := "Order confirmed successfully", orderID := orderId
             transactionID := tx.id }, s3)

/-- The confirmOrder flow of the adapter (src/adapter/index.ts:394-778):
resolve the transaction, backfill the provider order id, fail if none,
short-circuit on the idempotency gate, fetch and verify the live
provider order, then materialize.  Thrown errors surface to the caller
with their message (the outer catch rethrows the same message). -/
def confirmOrder (env : ConfirmEnv) (d : ConfirmData) (s : Store) :
    Except String ConfirmResult × Store :=
  match resolveTransaction d s with
  | none => (.error "Transaction not found.", s)
  | some tx =>
    let sveaOrderId := effectiveSveaOrderId d tx
    if jsTruthy sveaOrderId then
      if tx.status = "succeeded" ∧ natTruthy tx.order then
        (.ok { message := "Order already confirmed", orderID := tx.order.getD 0
               transactionID := tx.id }, s)
      else
        match env.fetchSveaOrder (sveaOrderId.getD (.num 0)) with
        | .error e => (.error e, s)
        | .ok sveaOrder =>
          if sveaOrder.Stat ≠ "Final" then
            (.error ("Svea order is not finalized. Current status: " ++ sveaOrder.Stat), s)
          else
            confirmMaterialize env d s tx (sveaOrderId.getD (.num 0)) sveaOrder
    else (.error "Svea order ID is required.", s)

/-- The outcome of an injected custom-validation call: returned true,
returned false, or threw with a message. -/
inductive ValidationOutcome where
  | valid
  | invalid
  | threw (msg : String)
deriving Repr, DecidableEq

/-- A validation-callback request after transport framing:
the EventName field that marks an event notification, the order id in
its two body casings, and the positive integer parsed from the URL
path. -/
structure ValidationReq where
  eventName : Option String := none
  bodyOrderIdPascal : Option Int := none
  bodyOrderIdCamel : Option Int := none
  orderIdFromUrl : Option Int := none
deriving Repr, DecidableEq

/-- The response of the validation callback: HTTP status, the Valid
flag, and the optional Message / Warning fields of the body. -/
structure ValidationResp where
  status : Nat
  valid : Bool
  message : Option String := none
  warning : Option String := none
deriving Repr, DecidableEq

/-- The validation-callback handler
(src/handlers/validation-callback.ts:65-271): event notifications are
acknowledged Valid true; a missing order id or unknown transaction
yields Valid true with a warning; the injected custom-validation
predicate returning false or throwing yields Valid false with a message;
otherwise Valid true.  The handler performs no store writes, and every
response carries HTTP status 200. -/
def handleValidationRequest (customValidation : Option (Int → Tx → ValidationOutcome))
    (r : ValidationReq) (s : Store) : ValidationResp × Store :=
  if jsStrTruthy r.eventName then
    ({ status := 200, valid := true }, s)
  else
    let orderId := jsOrInt r.bodyOrderIdPascal (jsOrInt r.bodyOrderIdCamel r.orderIdFromUrl)
    match orderId with
    | none => ({ status := 200, valid := true, warning := some "Missing OrderId" }, s)
    | some oid =>
      if oid = 0 then
        ({ status := 200, valid := true, warning := some "Missing OrderId" }, s)
      else
        match s.findTxBySveaOrderId (some oid) with
        | none => ({ status := 200, valid := true, warning := some "Transaction not found" }, s)
        | some tx =>
          match customValidation with
          | none => ({ status := 200, valid := true }, s)
          | some f =>
            match f oid tx with
            | .valid => ({ status := 200, valid := true }, s)
            | .invalid =>
              ({ status := 200, valid := false, message := some "Order validation failed" }, s)
            | .threw m => ({ status := 200, valid := false, message := some m }, s)

/-- Fuel-indexed decimal printer; the fuel is an upper bound on the
argument so that the recursion is structural.  natDecimal supplies
n + 1 as fuel. -/
def natDecimalGo : Nat → Nat → List Char
  | 0, _ => []
  | f + 1, n =>
    if n < 10 then [Char.ofNat (48 + n)]
    else natDecimalGo f (n / 10) ++ [Char.ofNat (48 + n % 10)]

/-- JavaScript String(n) for a natural number: its decimal digit
string. -/
def natDecimal (n : Nat) : String :=
  ⟨natDecimalGo (n + 1) n⟩

/-- JavaScript s.padStart(2, '0'). -/
def padStart2 (s : String) : String :=
  ⟨List.replicate (2 - s.length) '0' ++ s.toList⟩

/-- JavaScript n.toString(16): lowercase hexadecimal digits
(Nat.toDigits 16 produces exactly these). -/
def natToHex (n : Nat) : String :=
  ⟨Nat.toDigits 16 n⟩

/-- One byte rendered as in the source: b.toString(16).padStart(2, '0'). -/
def byteToHex (b : Nat) : String :=
  padStart2 (natToHex b)

/-- JavaScript s.toLowerCase(), as a character-wise map (the strings in
play are ASCII). -/
def jsToLowerCase (s : String) : String :=
  ⟨s.toList.map Char.toLower⟩

/-- JavaScript array.join() with the empty separator. -/
def joinAll : List String → String
  | [] => ""
  | x :: l => x ++ joinAll l

/-- The hash rendering of createSveaAuthHeaders (src/adapter/auth.ts):
map each byte to two-padded hex, join, lowercase. -/
def hexOfBytes (bs : List Nat) : String :=
  jsToLowerCase (joinAll (bs.map byteToHex))

/-- Spec-side lowercase hex digit (written from the claim's wording, to
compare against the code's rendering). -/
def hexDigitChar (n : Nat) : Char :=
  if n < 10 then Char.ofNat (48 + n) else Char.ofNat (87 + n)

/-- Spec-side rendering of one byte as two lowercase hex digits. -/
def specHexLowerByte (b : Nat) : String :=
  ⟨[hexDigitChar (b / 16), hexDigitChar (b % 16)]⟩

/-- Spec-side lowercase-hex rendering of a byte list. -/
def specHexLower (bs : List Nat) : String :=
  joinAll (bs.map specHexLowerByte)

/-- UTF-8 bytes of a string; the merchant ids and hex strings in play
are ASCII, where the bytes are the character codes. -/
def strBytes (s : String) : List Nat :=
  s.toList.map Char.toNat

/-- The base64 alphabet. -/
def base64Chars : List Char :=
  "ABCDEFGHIJKLMNOPQRSTUVWXYZabcdefghijklmnopqrstuvwxyz0123456789+/".toList

/-- Base64 digit for a 6-bit value. -/
def b64c (n : Nat) : Char :=
  base64Chars.getD n 'A'

/-- Standard base64 encoding of a byte list (Buffer.toString of the
source), with = padding. -/
def base64Encode : List Nat → String
  | [] => ""
  | [a] => ⟨[b64c (a / 4), b64c (a % 4 * 16), '=', '=']⟩
  | [a, b] => ⟨[b64c (a / 4), b64c (a % 4 * 16 + b / 16), b64c (b % 16 * 4), '=']⟩
  | a :: b :: c :: rest =>
    (⟨[b64c (a / 4), b64c (a % 4 * 16 + b / 16), b64c (b % 16 * 4 + c / 64),
       b64c (c % 64)]⟩ : String) ++ base64Encode rest

/-- The UTC clock components read off a JavaScript Date (getUTCMonth is
0-based, as in the source). -/
structure UtcNow where
  fullYear : Nat
  utcMonth : Nat
  utcDate : Nat
  utcHours : Nat
  utcMinutes : Nat
  utcSeconds : Nat
deriving Repr, DecidableEq

/-- The timestamp built by createSveaAuthHeaders: UTC
YYYY-MM-DD HH:MM:SS with two-padded components. -/
def formatUtcTimestamp (now : UtcNow) : String :=
  natDecimal now.fullYear ++ "-" ++ padStart2 (natDecimal (now.utcMonth + 1)) ++ "-" ++
    padStart2 (natDecimal now.utcDate) ++ " " ++ padStart2 (natDecimal now.utcHours) ++ ":" ++
    padStart2 (natDecimal now.utcMinutes) ++ ":" ++ padStart2 (natDecimal now.utcSeconds)

/-- The two header values produced by createSveaAuthHeaders. -/
structure AuthHeaders where
  token : String
  timestamp : String
deriving Repr, DecidableEq

/-- createSveaAuthHeaders (src/adapter/auth.ts): the SHA-512 primitive
of the crypto library is an external collaborator, passed as an oracle
over the input string.  A missing merchant id or secret key throws;
otherwise the result is the timestamp and the base64 token over
merchantId : hex(sha512(requestBody + secretKey + timestamp)). -/
def createSveaAuthHeaders (sha512 : String → List Nat) (now : UtcNow)
    (merchantId secretKey : String) (requestBody : String := "") :
    Except String AuthHeaders :=
  if merchantId = "" ∨ secretKey = "" then
    .error "Merchant ID and secret key are required"
  else
    let timestamp := formatUtcTimestamp now
    let input := requestBody ++ secretKey ++ timestamp
    let hash := hexOfBytes (sha512 input)
    let tokenString := merchantId ++ ":" ++ hash
    .ok { token := base64Encode (strBytes tokenString), timestamp := timestamp }

/-- The claim's shape for the timestamp: UTC YYYY-MM-DD HH:MM:SS, i.e.
four digits, dash, two digits, dash, two digits, space, two digits,
colon, two digits, colon, two digits. -/
def IsUtcTimestampFormat (t : String) : Prop :=
  ∃ y mo d h mi se : String,
    t = y ++ "-" ++ mo ++ "-" ++ d ++ " " ++ h ++ ":" ++ mi ++ ":" ++ se ∧
    y.length = 4 ∧ mo.length = 2 ∧ d.length = 2 ∧ h.length = 2 ∧
    mi.length = 2 ∧ se.length = 2 ∧
    ((y.toList ++ mo.toList ++ d.toList ++ h.toList ++ mi.toList ++ se.toList).all
      Char.isDigit = true)

theorem orders_updateTxStore (s : Store) (i : Nat) (f : Tx → Tx) :
    (s.updateTxStore i f).orders = s.orders := rfl

theorem carts_updateTxStore (s : Store) (i : Nat) (f : Tx → Tx) :
    (s.updateTxStore i f).carts = s.carts := rfl

theorem orders_updateCartStore (s : Store) (i : Nat) (f : Cart → Cart) :
    (s.updateCartStore i f).orders = s.orders := rfl

theorem transactions_updateCartStore (s : Store) (i : Nat) (f : Cart → Cart) :
    (s.updateCartStore i f).transactions = s.transactions := rfl

theorem jsSetDedup_go_mem (xs : List Nat) : ∀ (acc : List Nat) (y : Nat),
    (y ∈ xs.foldl (fun acc x => if x ∈ acc then acc else acc ++ [x]) acc) ↔
      y ∈ acc ∨ y ∈ xs := by
  induction xs with
  | nil => intro acc y; simp
  | cons x xs ih =>
    intro acc y
    simp only [List.foldl_cons]
    rw [ih]
    by_cases hx : x ∈ acc
    · simp only [if_pos hx, List.mem_cons]
      constructor
      · rintro (h | h)
        · exact Or.inl h
        · exact Or.inr (Or.inr h)
      · rintro (h | rfl | h)
        · exact Or.inl h
        · exact Or.inl hx
        · exact Or.inr h
    · simp only [if_neg hx, List.mem_append, List.mem_singleton, List.mem_cons]
      tauto

theorem jsSetDedup_go_nodup (xs : List Nat) : ∀ acc : List Nat, acc.Nodup →
    (xs.foldl (fun acc x => if x ∈ acc then acc else acc ++ [x]) acc).Nodup := by
  induction xs with
  | nil => intro acc h; simpa using h
  | cons x xs ih =>
    intro acc h
    simp only [List.foldl_cons]
    by_cases hx : x ∈ acc
    · rw [if_pos hx]; exact ih acc h
    · rw [if_neg hx]
      refine ih _ ?_
      exact List.nodup_append.mpr ⟨h, List.nodup_singleton x, by simpa using hx⟩

theorem jsSetDedup_mem (xs : List Nat) (y : Nat) : y ∈ jsSetDedup xs ↔ y ∈ xs := by
  unfold jsSetDedup
  rw [jsSetDedup_go_mem]
  simp

theorem jsSetDedup_nodup (xs : List Nat) : (jsSetDedup xs).Nodup :=
  jsSetDedup_go_nodup xs [] List.nodup_nil

theorem applyOrderData_id (d : OrderData) (ts : List Nat) (o : Order) :
    (applyOrderData d ts o).id = o.id := rfl

theorem find?_map_updateOrder (l : List Order) (oid : Nat) (d : OrderData) (ts : List Nat)
    (eo : Order) (h : l.find? (fun o => o.id = oid) = some eo) :
    (l.map fun o => if o.id = oid then applyOrderData d ts o else o).find?
      (fun o => o.id = oid) = some (applyOrderData d ts eo) := by
  induction l with
  | nil => simp at h
  | cons a l ih =>
    by_cases ha : a.id = oid
    · rw [List.find?_cons_of_pos _ (by simp [ha])] at h
      have : a = eo := by injection h
      subst this
      simp only [List.map_cons, if_pos ha]
      exact List.find?_cons_of_pos _ (by simp [applyOrderData_id, ha])
    · rw [List.find?_cons_of_neg _ (by simp [ha])] at h
      simp only [List.map_cons, if_neg ha]
      rw [List.find?_cons_of_neg _ (by simp [ha])]
      exact ih h

theorem webhookFinalBranch_status (deps : WebhookDeps) (r : WebhookReq)
    (oid : Option Int) (tx : Tx) (s : Store) :
    (webhookFinalBranch deps r oid tx s).1.status = 200 := by
  unfold webhookFinalBranch
  repeat' split <;> try rfl
  all_goals dsimp only
  all_goals repeat' split <;> try rfl

/-- Claim C3: the webhook handler responds with HTTP 200 for every
input, every store state, and every behaviour of the external store
operations — including operations that throw; internal errors are never
surfaced as a non-success response. -/
theorem webhook_always_ok (deps : WebhookDeps) (r : WebhookReq) (s : Store) :
    (handleWebhook deps r s).1.status = 200 := by
  unfold handleWebhook
  repeat' split
  all_goals first
    | rfl
    | apply webhookFinalBranch_status

/-- Claim C7: a webhook request from which no order id can be determined
(the resolution chain yields nothing truthy) causes no store mutation at
all — under arbitrary store-operation behaviour, since none is invoked —
and yields the 200 response. -/
theorem webhook_missing_orderid_no_mutation (deps : WebhookDeps) (r : WebhookReq) (s : Store)
    (h : jsTruthy (webhookOrderIdVal r) = false) :
    handleWebhook deps r s = ({ status := 200 }, s) := by
  unfold handleWebhook
  cases hv : webhookOrderIdVal r with
  | none => rfl
  | some v =>
    rw [hv] at h
    simp only [jsTruthy] at h
    simp [h]

/-- Witness for claim C7 at a concrete request with no order id
anywhere. -/
theorem webhook_missing_orderid_no_mutation_concrete :
    handleWebhook (payloadDeps "") { statusPascal := some "Final" } { nextOrderId := 1 } =
      ({ status := 200 }, { nextOrderId := 1 }) :=
  webhook_missing_orderid_no_mutation (payloadDeps "") { statusPascal := some "Final" }
    { nextOrderId := 1 } rfl

/-- Claim C6: a webhook delivering status Cancelled for a resolved
transaction responds 200 with a success body and changes exactly that
transaction's status to failed: orders and carts are untouched, and no
other transaction or field is modified. -/
theorem webhook_cancelled_tx_failed (now : String) (r : WebhookReq) (s : Store)
    (v : JsVal) (tx : Tx)
    (hv : webhookOrderIdVal r = some v) (ht : v.truthy = true)
    (hfind : s.findTxBySveaOrderId (jsValToId v) = some tx)
    (hst : webhookStatus r = some "Cancelled") :
    handleWebhook (payloadDeps now) r s =
      ({ status := 200, success := true },
       { s with transactions :=
          s.transactions.map fun t =>
            if t.id = tx.id then { t with status := "failed" } else t }) := by
  have htx : tx ∈ s.transactions := by
    unfold Store.findTxBySveaOrderId at hfind
    cases hjs : jsValToId v with
    | none => rw [hjs] at hfind; cases hfind
    | some n => rw [hjs] at hfind; exact List.mem_of_find?_eq_some hfind
  have hupd : (s.transactions.find? fun t => t.id = tx.id).isSome := by
    rw [List.find?_isSome]
    exact ⟨tx, htx, by simp⟩
  unfold handleWebhook
  rw [hv]
  dsimp only
  rw [if_pos ht]
  simp only [payloadDeps]
  rw [hfind]
  dsimp only
  simp only [hst]
  rw [if_neg (by simp), if_pos trivial, if_pos hupd]
  rfl

/-- A pending transaction holding provider order id 66, for concrete
checks. -/
def wTxPending : Tx :=
  { id := 4, status := "pending", cart := some 2, sveaOrderId := some 66 }

/-- A store holding only the pending transaction and its cart. -/
def wStorePending : Store :=
  { transactions := [wTxPending], carts := [{ id := 2 }], nextOrderId := 1 }

/-- A webhook request delivering status Cancelled for provider order
66. -/
def wReqCancelled : WebhookReq :=
  { orderIdPascal := some (.num 66), statusPascal := some "Cancelled" }

/-- Witness for claim C6 at the concrete Cancelled delivery. -/
theorem webhook_cancelled_tx_failed_concrete :
    handleWebhook (payloadDeps "") wReqCancelled wStorePending =
      ({ status := 200, success := true },
       { wStorePending with transactions :=
          wStorePending.transactions.map fun t =>
            if t.id = wTxPending.id then { t with status := "failed" } else t }) :=
  webhook_cancelled_tx_failed "" wReqCancelled wStorePending (.num 66) wTxPending
    rfl rfl rfl rfl

/-- A transaction already succeeded and linked to order 7, with provider
order id 55. -/
def wTxDone : Tx :=
  { id := 3, status := "succeeded", order := some 7, cart := some 1, sveaOrderId := some 55 }

/-- A store holding the succeeded transaction, its order and its cart. -/
def wStoreDone : Store :=
  { transactions := [wTxDone], orders := [{ id := 7, transactions := [3] }],
    carts := [{ id := 1 }], nextOrderId := 8 }

/-- A confirm-order request identifying the transaction by its id. -/
def wDataByTxId : ConfirmData := { transactionId := some (.num 3) }

/-- A confirm-order environment whose gateway call is never expected to
be reached. -/
def wEnvErr : ConfirmEnv := { fetchSveaOrder := fun _ => .error "unreachable" }

/-- A confirm-order environment whose gateway reports a not-yet-final
provider order. -/
def wEnvOpen : ConfirmEnv := { fetchSveaOrder := fun _ => .ok { Stat := "Created" } }

/-- A webhook request delivering status Final for provider order 55. -/
def wReqFinalDone : WebhookReq :=
  { orderIdPascal := some (.num 55), statusPascal := some "Final" }

/-- Claim C1: the idempotency gate.  A transaction already succeeded and
carrying an order link makes confirmOrder return the linked order id
with the store untouched, and makes a Final webhook answer the
already-processed success response with the store untouched: the second
finalization performs no store write and creates no order. -/
theorem finalization_idempotency_gate :
    (∀ (env : ConfirmEnv) (d : ConfirmData) (s : Store) (tx : Tx) (o : Nat),
      resolveTransaction d s = some tx →
      jsTruthy (effectiveSveaOrderId d tx) = true →
      tx.status = "succeeded" → tx.order = some o → o ≠ 0 →
      confirmOrder env d s =
        (.ok { message := "Order already confirmed", orderID := o, transactionID := tx.id },
         s)) ∧
    (∀ (now : String) (r : WebhookReq) (v : JsVal) (s : Store) (tx : Tx),
      webhookOrderIdVal r = some v → v.truthy = true →
      s.findTxBySveaOrderId (jsValToId v) = some tx →
      webhookStatus r = some "Final" →
      tx.status = "succeeded" → natTruthy tx.order = true →
      handleWebhook (payloadDeps now) r s =
        ({ status := 200, success := true, message := some "Already processed" }, s)) := by
  constructor
  · intro env d s tx o hres hsid hst hord ho
    unfold confirmOrder
    rw [hres]
    dsimp only
    rw [if_pos hsid]
    rw [if_pos ⟨hst, by rw [hord]; simpa [natTruthy] using ho⟩]
    rw [hord]
    rfl
  · intro now r v s tx hv ht hfind hFinal hst htr
    unfold handleWebhook
    rw [hv]
    dsimp only
    rw [if_pos ht]
    simp only [payloadDeps]
    rw [hfind]
    dsimp only
    rw [if_pos hFinal]
    unfold webhookFinalBranch
    rw [if_pos ⟨hst, htr⟩]

/-- Witness for claim C1: a duplicate confirm call and a duplicate Final
webhook against the already-succeeded transaction. -/
theorem finalization_idempotency_gate_concrete :
    confirmOrder wEnvErr wDataByTxId wStoreDone =
      (.ok { message := "Order already confirmed", orderID := 7, transactionID := 3 },
       wStoreDone) ∧
    handleWebhook (payloadDeps "") wReqFinalDone wStoreDone =
      ({ status := 200, success := true, message := some "Already processed" }, wStoreDone) :=
  ⟨finalization_idempotency_gate.1 wEnvErr wDataByTxId wStoreDone wTxDone 7
     rfl rfl rfl rfl (by decide),
   finalization_idempotency_gate.2 "" wReqFinalDone (.num 55) wStoreDone wTxDone
     rfl rfl rfl rfl rfl rfl⟩

/-- Claim C2: a provider order that is not Final never becomes a host
order.  In confirmOrder, a fetched status other than Final fails with
the not-finalized error and leaves the store untouched; in the webhook,
any delivered status other than Final leaves the orders collection
unchanged. -/
theorem non_final_never_creates_order :
    (∀ (env : ConfirmEnv) (d : ConfirmData) (s : Store) (tx : Tx) (v : JsVal)
        (so : SveaOrderView),
      resolveTransaction d s = some tx →
      effectiveSveaOrderId d tx = some v → v.truthy = true →
      ¬ (tx.status = "succeeded" ∧ natTruthy tx.order = true) →
      env.fetchSveaOrder v = .ok so → so.Stat ≠ "Final" →
      confirmOrder env d s =
        (.error ("Svea order is not finalized. Current status: " ++ so.Stat), s)) ∧
    (∀ (now : String) (r : WebhookReq) (s : Store),
      webhookStatus r ≠ some "Final" →
      (handleWebhook (payloadDeps now) r s).2.orders = s.orders) := by
  constructor
  · intro env d s tx v so hres heff htr hgate hfetch hstat
    unfold confirmOrder
    rw [hres]
    dsimp only
    rw [heff]
    rw [if_pos (by simpa [jsTruthy] using htr)]
    rw [if_neg hgate]
    simp only [Option.getD_some]
    rw [hfetch]
    dsimp only
    rw [if_pos hstat]
  · intro now r s hns
    unfold handleWebhook
    cases hv : webhookOrderIdVal r with
    | none => rfl
    | some v =>
      dsimp only
      by_cases ht : v.truthy
      · rw [if_pos ht]
        simp only [payloadDeps]
        cases hfind : s.findTxBySveaOrderId (jsValToId v) with
        | none => rfl
        | some tx =>
          dsimp only
          rw [if_neg hns]
          by_cases hc : webhookStatus r = some "Cancelled"
          · rw [if_pos hc]
            by_cases hu : (s.transactions.find? fun t => t.id = tx.id).isSome
            · rw [if_pos hu]
              try rfl
            · rw [if_neg hu]
              try rfl
          · rw [if_neg hc]
            try rfl
      · rw [if_neg ht]
        try rfl

/-- A confirm-order request naming provider order 66 directly. -/
def wDataOrder66 : ConfirmData := { orderId := some (.num 66) }

/-- Witness for claim C2: a pending transaction whose provider order is
still Created, confirmed and webhooked. -/
theorem non_final_never_creates_order_concrete :
    confirmOrder wEnvOpen wDataOrder66 wStorePending =
      (.error ("Svea order is not finalized. Current status: " ++ "Created"),
       wStorePending) ∧
    (handleWebhook (payloadDeps "") wReqCancelled wStorePending).2.orders =
      wStorePending.orders :=
  ⟨non_final_never_creates_order.1 wEnvOpen wDataOrder66 wStorePending wTxPending
     (.num 66) { Stat := "Created" } rfl rfl rfl (by decide) rfl (by decide),
   non_final_never_creates_order.2 "" wReqCancelled wStorePending (by decide)⟩

/-- Claim C4: the identifier resolver tries its strategies in a fixed
priority order with short-circuiting; a malformed transaction id is
non-fatal and falls through to the later strategies; and when no
strategy resolves, confirmOrder fails with the transaction-not-found
error and no store write. -/
theorem identifier_resolution_priority :
    (∀ (d : ConfirmData) (s : Store) (tx : Tx),
      resolveByTransactionId d s = some tx → resolveTransaction d s = some tx) ∧
    (∀ (d : ConfirmData) (s : Store),
      resolveByTransactionId d s = none →
      resolveTransaction d s =
        (match resolveBySveaOrderId d s with
         | some tx => some tx
         | none => resolveByClientOrderNumber d s)) ∧
    (∀ (d : ConfirmData) (s : Store) (t : String),
      confirmTransactionId d = some (.str t) → parseIntJs t = none →
      resolveByTransactionId d s = none) ∧
    (∀ (env : ConfirmEnv) (d : ConfirmData) (s : Store),
      resolveTransaction d s = none →
      confirmOrder env d s = (.error "Transaction not found.", s)) := by
  refine ⟨?_, ?_, ?_, ?_⟩
  · intro d s tx h
    unfold resolveTransaction
    rw [h]
  · intro d s h
    unfold resolveTransaction
    rw [h]
  · intro d s t hct hparse
    unfold resolveByTransactionId
    rw [hct]
    dsimp only
    by_cases htr : (JsVal.str t).truthy
    · rw [if_pos htr]
      show s.findTxById (parseIntJs t) = none
      rw [hparse]
      rfl
    · rw [if_neg htr]
  · intro env d s h
    unfold confirmOrder
    rw [h]

/-- A confirm-order request with a malformed transaction id and a
provider order id fallback. -/
def wDataMalformed : ConfirmData :=
  { transactionId := some (.str "abc"), orderId := some (.num 55) }

/-- Witness for claim C4: direct hit, malformed fall-through, and the
not-found error on an empty store. -/
theorem identifier_resolution_priority_concrete :
    resolveTransaction wDataByTxId wStoreDone = some wTxDone ∧
    resolveTransaction wDataMalformed wStoreDone =
      (match resolveBySveaOrderId wDataMalformed wStoreDone with
       | some tx => some tx
       | none => resolveByClientOrderNumber wDataMalformed wStoreDone) ∧
    resolveByTransactionId wDataMalformed wStoreDone = none ∧
    confirmOrder wEnvErr {} {} = (.error "Transaction not found.", ({} : Store)) :=
  ⟨identifier_resolution_priority.1 wDataByTxId wStoreDone wTxDone rfl,
   identifier_resolution_priority.2.1 wDataMalformed wStoreDone rfl,
   identifier_resolution_priority.2.2.1 wDataMalformed wStoreDone "abc" rfl rfl,
   identifier_resolution_priority.2.2.2 wEnvErr {} {} rfl⟩

/-- Claim C5: the merged linked-transactions list is a duplicate-free
set union of the stored non-null ids with this transaction's id, and
when the finalization path finds an existing order it updates that
order in place — the orders collection keeps its size, the updated
order carries exactly the merged set, and the existing order's id is
returned. -/
theorem existing_order_merge_union :
    (∀ (existing : List Nat) (txId : Nat),
      (jsSetDedup ((existing.filter fun i => i ≠ 0) ++ [txId])).Nodup ∧
      ∀ x, x ∈ jsSetDedup ((existing.filter fun i => i ≠ 0) ++ [txId]) ↔
        ((x ∈ existing ∧ x ≠ 0) ∨ x = txId)) ∧
    (∀ (env : ConfirmEnv) (d : ConfirmData) (s : Store) (tx : Tx) (v : JsVal)
        (so : SveaOrderView) (cid : Nat) (cart : Cart) (eo : Order),
      tx.cart = some cid → cid ≠ 0 → s.findCartById cid = some cart →
      tx.order = none →
      s.findOrderContainingTx tx.id = some eo →
      s.findOrderById eo.id = some eo →
      (confirmMaterialize env d s tx v so).1 =
        .ok { message := "Order confirmed successfully", orderID := eo.id,
              transactionID := tx.id } ∧
      (confirmMaterialize env d s tx v so).2.orders.length = s.orders.length ∧
      ((confirmMaterialize env d s tx v so).2.findOrderById eo.id).map Order.transactions =
        some (jsSetDedup ((eo.transactions.filter fun i => i ≠ 0) ++ [tx.id]))) := by
  constructor
  · intro existing txId
    refine ⟨jsSetDedup_nodup _, fun x => ?_⟩
    rw [jsSetDedup_mem]
    simp [List.mem_append, List.mem_filter]
  · intro env d s tx v so cid cart eo hcart hcid hfindc hord hcontain hfindo
    have hmain : confirmMaterialize env d s tx v so =
        (.ok { message := "Order confirmed successfully", orderID := eo.id,
               transactionID := tx.id },
         ((s.updateOrderDoc eo.id (confirmOrderPayload env d tx so cart)
             (jsSetDedup ((eo.transactions.filter fun i => i ≠ 0) ++
               [tx.id]))).updateCartStore cart.id fun c => { c with
                 purchasedAt :=
                   some ((jsOrStr cart.purchasedAt (some env.nowIso)).getD env.nowIso)
                 status := some "purchased"
                 items := [] }).updateTxStore tx.id fun t => { t with
           order := some eo.id
           status := "succeeded"
           billingAddress := confirmBillingAddress env tx so <|> t.billingAddress
           customerEmail :=
             if jsStrTruthy (confirmCustomerEmail env d tx so) then
               confirmCustomerEmail env d tx so
             else t.customerEmail
           sveaOrderId := jsNumber v
           sveaClientOrderNumber := jsOrStr tx.sveaClientOrderNumber (some so.ClientOrderNumber)
           sveaPaymentType := jsOrStr so.PaymentType so.PaymentPaymentType }) := by
      unfold confirmMaterialize
      rw [hcart]
      dsimp only
      rw [if_pos hcid, hfindc]
      dsimp only
      rw [hord]
      simp only [natTruthy]
      rw [if_neg (by simp)]
      rw [hcontain]
      simp only [Option.map_some']
      rw [hfindo]
    refine ⟨by rw [hmain], ?_, ?_⟩
    · rw [hmain]
      show ((s.updateOrderDoc eo.id _ _).orders).length = s.orders.length
      unfold Store.updateOrderDoc
      simp
    · rw [hmain]
      show ((s.updateOrderDoc eo.id _ _).findOrderById eo.id).map Order.transactions = _
      unfold Store.findOrderById Store.updateOrderDoc
      dsimp only
      rw [find?_map_updateOrder s.orders eo.id _ _ eo hfindo]
      rfl

/-- A pending transaction whose id 3 is already linked inside an
existing order. -/
def wTxLink : Tx :=
  { id := 3, status := "pending", cart := some 1, sveaOrderId := some 55 }

/-- An order already holding transactions 9 and 3. -/
def wOrderShared : Order := { id := 7, transactions := [9, 3] }

/-- A store where order 7 already contains transaction 3. -/
def wStoreMerge : Store :=
  { transactions := [wTxLink], orders := [wOrderShared], carts := [{ id := 1 }],
    nextOrderId := 8 }

/-- The Final provider order used in concrete materialization checks. -/
def wSveaFinal : SveaOrderView := { Stat := "Final" }

/-- Witness for claim C5 at the concrete existing-order merge. -/
theorem existing_order_merge_union_concrete :
    (jsSetDedup (([9, 3].filter fun i => i ≠ 0) ++ [3])).Nodup ∧
    (9 ∈ jsSetDedup (([9, 3].filter fun i => i ≠ 0) ++ [3]) ↔
      ((9 ∈ [9, 3] ∧ 9 ≠ 0) ∨ 9 = 3)) ∧
    (confirmMaterialize wEnvErr {} wStoreMerge wTxLink (.num 55) wSveaFinal).1 =
      .ok { message := "Order confirmed successfully", orderID := 7, transactionID := 3 } ∧
    (confirmMaterialize wEnvErr {} wStoreMerge wTxLink (.num 55) wSveaFinal).2.orders.length =
      wStoreMerge.orders.length ∧
    ((confirmMaterialize wEnvErr {} wStoreMerge wTxLink (.num 55)
        wSveaFinal).2.findOrderById 7).map Order.transactions =
      some (jsSetDedup (([9, 3].filter fun i => i ≠ 0) ++ [3])) :=
  ⟨(existing_order_merge_union.1 [9, 3] 3).1,
   (existing_order_merge_union.1 [9, 3] 3).2 9,
   (existing_order_merge_union.2 wEnvErr {} wStoreMerge wTxLink (.num 55) wSveaFinal 1
      { id := 1 } wOrderShared rfl (by decide) rfl rfl rfl rfl).1,
   (existing_order_merge_union.2 wEnvErr {} wStoreMerge wTxLink (.num 55) wSveaFinal 1
      { id := 1 } wOrderShared rfl (by decide) rfl rfl rfl rfl).2.1,
   (existing_order_merge_union.2 wEnvErr {} wStoreMerge wTxLink (.num 55) wSveaFinal 1
      { id := 1 } wOrderShared rfl (by decide) rfl rfl rfl rfl).2.2⟩

/-- Claim C8: the validation callback never mutates the store, always
answers HTTP 200, only the injected custom-validation predicate can
produce a Valid false response (a rejection implies an installed
predicate that rejected a resolved transaction), and when the predicate
rejects (returns false or throws) the response is Valid false with
HTTP 200. -/
theorem validation_rejection_only_custom :
    (∀ (cv : Option (Int → Tx → ValidationOutcome)) (r : ValidationReq) (s : Store),
      (handleValidationRequest cv r s).2 = s) ∧
    (∀ (cv : Option (Int → Tx → ValidationOutcome)) (r : ValidationReq) (s : Store),
      (handleValidationRequest cv r s).1.status = 200) ∧
    (∀ (cv : Option (Int → Tx → ValidationOutcome)) (r : ValidationReq) (s : Store),
      (handleValidationRequest cv r s).1.valid = false → cv.isSome) ∧
    (∀ (f : Int → Tx → ValidationOutcome) (r : ValidationReq) (s : Store),
      (handleValidationRequest (some f) r s).1.valid = false →
      ∃ oid tx, s.findTxBySveaOrderId (some oid) = some tx ∧ f oid tx ≠ .valid) ∧
    (∀ (f : Int → Tx → ValidationOutcome) (r : ValidationReq) (s : Store)
        (oid : Int) (tx : Tx),
      jsStrTruthy r.eventName = false →
      jsOrInt r.bodyOrderIdPascal (jsOrInt r.bodyOrderIdCamel r.orderIdFromUrl) = some oid →
      oid ≠ 0 →
      s.findTxBySveaOrderId (some oid) = some tx →
      f oid tx ≠ .valid →
      (handleValidationRequest (some f) r s).1.valid = false ∧
      (handleValidationRequest (some f) r s).1.status = 200) := by
  refine ⟨?_, ?_, ?_, ?_, ?_⟩
  · intro cv r s
    unfold handleValidationRequest
    dsimp only
    repeat' split
    all_goals rfl
  · intro cv r s
    unfold handleValidationRequest
    dsimp only
    repeat' split
    all_goals rfl
  · intro cv r s h
    cases cv with
    | some f => simp
    | none =>
      exfalso
      revert h
      unfold handleValidationRequest
      dsimp only
      repeat' split
      all_goals simp
  · intro f r s
    unfold handleValidationRequest
    dsimp only
    by_cases hev : jsStrTruthy r.eventName
    · rw [if_pos hev]
      intro h
      simp at h
    · rw [if_neg hev]
      cases hoid : jsOrInt r.bodyOrderIdPascal (jsOrInt r.bodyOrderIdCamel r.orderIdFromUrl) with
      | none => intro h; simp at h
      | some oid =>
        dsimp only
        by_cases h0 : oid = 0
        · rw [if_pos h0]; intro h; simp at h
        · rw [if_neg h0]
          cases hfind : s.findTxBySveaOrderId (some oid) with
          | none => intro h; simp at h
          | some tx =>
            dsimp only
            cases hout : f oid tx with
            | valid => intro h; simp at h
            | invalid => intro _; exact ⟨oid, tx, hfind, by simp [hout]⟩
            | threw m => intro _; exact ⟨oid, tx, hfind, by simp [hout]⟩
  · intro f r s oid tx hev hoid hoid0 hfind hne
    have hmain : ∃ m, (handleValidationRequest (some f) r s).1 =
        { status := 200, valid := false, message := some m } := by
      unfold handleValidationRequest
      rw [if_neg (by simp [hev])]
      dsimp only
      rw [hoid]
      dsimp only
      rw [if_neg hoid0, hfind]
      dsimp only
      cases hout : f oid tx with
      | valid => exact absurd hout hne
      | invalid => exact ⟨"Order validation failed", rfl⟩
      | threw m => exact ⟨m, rfl⟩
    obtain ⟨m, hm⟩ := hmain
    rw [hm]
    exact ⟨rfl, rfl⟩

/-- A validation request carrying order id 66 in the body. -/
def wValReq : ValidationReq := { bodyOrderIdPascal := some 66 }

/-- A custom-validation predicate that rejects every order. -/
def wRejectAll : Int → Tx → ValidationOutcome := fun _ _ => .invalid

/-- Witness for claim C8 at the concrete rejecting predicate. -/
theorem validation_rejection_only_custom_concrete :
    (handleValidationRequest (some wRejectAll) wValReq wStorePending).2 = wStorePending ∧
    (handleValidationRequest none wValReq wStorePending).1.status = 200 ∧
    ((some wRejectAll : Option (Int → Tx → ValidationOutcome)).isSome = true) ∧
    (∃ oid tx, wStorePending.findTxBySveaOrderId (some oid) = some tx ∧
      wRejectAll oid tx ≠ .valid) ∧
    (handleValidationRequest (some wRejectAll) wValReq wStorePending).1.valid = false ∧
    (handleValidationRequest (some wRejectAll) wValReq wStorePending).1.status = 200 :=
  ⟨validation_rejection_only_custom.1 (some wRejectAll) wValReq wStorePending,
   validation_rejection_only_custom.2.1 none wValReq wStorePending,
   validation_rejection_only_custom.2.2.1 (some wRejectAll) wValReq wStorePending rfl,
   validation_rejection_only_custom.2.2.2.1 wRejectAll wValReq wStorePending rfl,
   (validation_rejection_only_custom.2.2.2.2 wRejectAll wValReq wStorePending 66 wTxPending
      rfl rfl (by decide) rfl (by decide)).1,
   (validation_rejection_only_custom.2.2.2.2 wRejectAll wValReq wStorePending 66 wTxPending
      rfl rfl (by decide) rfl (by decide)).2⟩

set_option maxRecDepth 10000 in
theorem byteHexTable :
    ((List.range 256).all fun b => jsToLowerCase (byteToHex b) == specHexLowerByte b) = true := by
  decide

theorem byteToHex_lower (b : Nat) (hb : b < 256) :
    jsToLowerCase (byteToHex b) = specHexLowerByte b := by
  have h := byteHexTable
  rw [List.all_eq_true] at h
  exact eq_of_beq (h b (List.mem_range.mpr hb))

theorem jsToLowerCase_append (a b : String) :
    jsToLowerCase (a ++ b) = jsToLowerCase a ++ jsToLowerCase b := by
  unfold jsToLowerCase
  show String.mk ((a.data ++ b.data).map Char.toLower) =
    String.mk (a.data.map Char.toLower ++ b.data.map Char.toLower)
  rw [List.map_append]

theorem hexOfBytes_eq_spec (bs : List Nat) (hb : ∀ b ∈ bs, b < 256) :
    hexOfBytes bs = specHexLower bs := by
  unfold hexOfBytes specHexLower
  induction bs with
  | nil => rfl
  | cons b bs ih =>
    simp only [List.map_cons, joinAll]
    rw [jsToLowerCase_append, byteToHex_lower b (hb b (by simp)),
      ih fun x hx => hb x (by simp [hx])]

theorem isDigit_ofNat (m : Nat) (hm : m < 10) : (Char.ofNat (48 + m)).isDigit = true := by
  interval_cases m <;> decide

theorem natDecimalGo_digits (n : Nat) : ∀ f, n < f →
    ((natDecimalGo f n).all Char.isDigit) = true := by
  induction n using Nat.strong_induction_on with
  | _ n ih =>
    intro f hf
    cases f with
    | zero => omega
    | succ f =>
      unfold natDecimalGo
      by_cases hn : n < 10
      · rw [if_pos hn]
        simp only [List.all_cons, List.all_nil, Bool.and_true]
        exact isDigit_ofNat n hn
      · rw [if_neg hn]
        rw [List.all_append]
        rw [ih (n / 10) (by omega) f (by omega)]
        simp only [Bool.true_and, List.all_cons, List.all_nil, Bool.and_true]
        exact isDigit_ofNat (n % 10) (by omega)

theorem natDecimalGo_len1 (n f : Nat) (hf : n < f) (h : n < 10) :
    (natDecimalGo f n).length = 1 := by
  cases f with
  | zero => omega
  | succ f => unfold natDecimalGo; rw [if_pos h]; rfl

theorem natDecimalGo_len2 (n f : Nat) (hf : n < f) (h1 : 10 ≤ n) (h2 : n < 100) :
    (natDecimalGo f n).length = 2 := by
  cases f with
  | zero => omega
  | succ f =>
    unfold natDecimalGo
    rw [if_neg (by omega)]
    rw [List.length_append, natDecimalGo_len1 (n / 10) f (by omega) (by omega)]
    rfl

theorem natDecimalGo_len3 (n f : Nat) (hf : n < f) (h1 : 100 ≤ n) (h2 : n < 1000) :
    (natDecimalGo f n).length = 3 := by
  cases f with
  | zero => omega
  | succ f =>
    unfold natDecimalGo
    rw [if_neg (by omega)]
    rw [List.length_append, natDecimalGo_len2 (n / 10) f (by omega) (by omega) (by omega)]
    rfl

theorem natDecimalGo_len4 (n f : Nat) (hf : n < f) (h1 : 1000 ≤ n) (h2 : n < 10000) :
    (natDecimalGo f n).length = 4 := by
  cases f with
  | zero => omega
  | succ f =>
    unfold natDecimalGo
    rw [if_neg (by omega)]
    rw [List.length_append, natDecimalGo_len3 (n / 10) f (by omega) (by omega) (by omega)]
    rfl

theorem natDecimal_length_le2 (n : Nat) (h : n < 100) : (natDecimal n).length ≤ 2 := by
  show (natDecimalGo (n + 1) n).length ≤ 2
  by_cases hn : n < 10
  · rw [natDecimalGo_len1 n (n + 1) (by omega) hn]; omega
  · rw [natDecimalGo_len2 n (n + 1) (by omega) (by omega) h]

theorem natDecimal_digits (n : Nat) : (natDecimal n).toList.all Char.isDigit = true :=
  natDecimalGo_digits n (n + 1) (by omega)

theorem padStart2_length (s : String) (h : s.length ≤ 2) : (padStart2 s).length = 2 := by
  show (List.replicate (2 - s.length) '0' ++ s.toList).length = 2
  rw [List.length_append, List.length_replicate]
  have hl : s.toList.length = s.length := rfl
  omega

theorem padStart2_digits (s : String) (h : s.toList.all Char.isDigit = true) :
    (padStart2 s).toList.all Char.isDigit = true := by
  show (List.replicate (2 - s.length) '0' ++ s.toList).all Char.isDigit = true
  rw [List.all_append, h]
  simp only [Bool.and_true]
  rw [List.all_eq_true]
  intro c hc
  rw [List.eq_of_mem_replicate hc]
  decide

theorem paddedDecimal_length (m : Nat) (h : m < 100) :
    (padStart2 (natDecimal m)).length = 2 :=
  padStart2_length _ (natDecimal_length_le2 m h)

theorem paddedDecimal_digits (m : Nat) :
    (padStart2 (natDecimal m)).toList.all Char.isDigit = true :=
  padStart2_digits _ (natDecimal_digits m)

theorem formatUtcTimestamp_format (now : UtcNow)
    (hy1 : 1000 ≤ now.fullYear) (hy2 : now.fullYear ≤ 9999)
    (hmo : now.utcMonth < 12) (hd : now.utcDate < 100) (hh : now.utcHours < 100)
    (hmi : now.utcMinutes < 100) (hs : now.utcSeconds < 100) :
    IsUtcTimestampFormat (formatUtcTimestamp now) := by
  refine ⟨natDecimal now.fullYear, padStart2 (natDecimal (now.utcMonth + 1)),
    padStart2 (natDecimal now.utcDate), padStart2 (natDecimal now.utcHours),
    padStart2 (natDecimal now.utcMinutes), padStart2 (natDecimal now.utcSeconds),
    rfl, ?_, ?_, ?_, ?_, ?_, ?_, ?_⟩
  · exact natDecimalGo_len4 now.fullYear (now.fullYear + 1) (by omega) hy1 (by omega)
  · exact paddedDecimal_length _ (by omega)
  · exact paddedDecimal_length _ hd
  · exact paddedDecimal_length _ hh
  · exact paddedDecimal_length _ hmi
  · exact paddedDecimal_length _ hs
  · rw [List.all_append, List.all_append, List.all_append, List.all_append,
      List.all_append]
    rw [natDecimal_digits, paddedDecimal_digits, paddedDecimal_digits,
      paddedDecimal_digits, paddedDecimal_digits, paddedDecimal_digits]
    rfl

/-- Claim C9: createSveaAuthHeaders produces a timestamp in UTC
YYYY-MM-DD HH:MM:SS shape and a token equal to the base64 encoding of
merchantId, a colon, and the lowercase hex of the SHA-512 of
requestBody + secretKey + timestamp, for every merchant id, secret,
body, in-range clock and byte-valued hash output. -/
theorem auth_headers_spec (sha512 : String → List Nat) (now : UtcNow)
    (merchantId secretKey requestBody : String)
    (hm : merchantId ≠ "") (hk : secretKey ≠ "")
    (hy1 : 1000 ≤ now.fullYear) (hy2 : now.fullYear ≤ 9999)
    (hmo : now.utcMonth < 12) (hd : now.utcDate < 100) (hh : now.utcHours < 100)
    (hmi : now.utcMinutes < 100) (hs : now.utcSeconds < 100)
    (hbytes : ∀ b ∈ sha512 (requestBody ++ secretKey ++ formatUtcTimestamp now), b < 256) :
    createSveaAuthHeaders sha512 now merchantId secretKey requestBody =
      .ok { token := base64Encode (strBytes (merchantId ++ ":" ++
              specHexLower (sha512 (requestBody ++ secretKey ++ formatUtcTimestamp now))))
            timestamp := formatUtcTimestamp now } ∧
    IsUtcTimestampFormat (formatUtcTimestamp now) := by
  constructor
  · unfold createSveaAuthHeaders
    rw [if_neg (by simp [hm, hk])]
    dsimp only
    rw [hexOfBytes_eq_spec _ hbytes]
  · exact formatUtcTimestamp_format now hy1 hy2 hmo hd hh hmi hs

/-- A concrete three-byte hash oracle. -/
def wSha : String → List Nat := fun _ => [0, 171, 255]

/-- A concrete UTC clock reading. -/
def wNow : UtcNow :=
  { fullYear := 2024, utcMonth := 0, utcDate := 5, utcHours := 7, utcMinutes := 8,
    utcSeconds := 9 }

/-- Witness for claim C9 at the concrete clock and hash oracle. -/
theorem auth_headers_spec_concrete :
    createSveaAuthHeaders wSha wNow "mid" "sk" "body" =
      .ok { token := base64Encode (strBytes ("mid" ++ ":" ++
              specHexLower (wSha ("body" ++ "sk" ++ formatUtcTimestamp wNow))))
            timestamp := formatUtcTimestamp wNow } ∧
    IsUtcTimestampFormat (formatUtcTimestamp wNow) :=
  auth_headers_spec wSha wNow "mid" "sk" "body" (by decide) (by decide) (by decide)
    (by decide) (by decide) (by decide) (by decide) (by decide) (by decide)
    (by decide)

/-- Claim C10: a resolved transaction with no truthy provider order id
in either the caller's input or the stored provider sub-object makes
confirmOrder fail with the Svea-order-id-required error before any
store write, an error distinct from the transaction-not-found and
missing-identifiers messages. -/
theorem missing_provider_order_id (env : ConfirmEnv) (d : ConfirmData) (s : Store) (tx : Tx)
    (hres : resolveTransaction d s = some tx)
    (hid : jsTruthy (effectiveSveaOrderId d tx) = false)
    (hgate : ¬ (tx.status = "succeeded" ∧ natTruthy tx.order = true)) :
    confirmOrder env d s = (.error "Svea order ID is required.", s) ∧
    ("Svea order ID is required." ≠ "Transaction not found.") ∧
    ("Svea order ID is required." ≠
      "Missing order identifiers. Please try again or contact support.") := by
  refine ⟨?_, by decide, by decide⟩
  unfold confirmOrder
  rw [hres]
  dsimp only
  rw [if_neg (by simp [hid])]

/-- A pending transaction with no provider sub-object data. -/
def wTxNoSvea : Tx := { id := 9, status := "pending" }

/-- A store holding only that transaction. -/
def wStoreNoSvea : Store := { transactions := [wTxNoSvea], nextOrderId := 1 }

/-- A confirm-order request naming transaction 9 and nothing else. -/
def wDataTx9 : ConfirmData := { transactionId := some (.num 9) }

/-- Witness for claim C10 at the concrete backfill-empty transaction. -/
theorem missing_provider_order_id_concrete :
    confirmOrder wEnvErr wDataTx9 wStoreNoSvea =
      (.error "Svea order ID is required.", wStoreNoSvea) ∧
    ("Svea order ID is required." ≠ "Transaction not found.") ∧
    ("Svea order ID is required." ≠
      "Missing order identifiers. Please try again or contact support.") :=
  missing_provider_order_id wEnvErr wDataTx9 wStoreNoSvea wTxNoSvea rfl rfl (by decide)

end Svea
